import Mathlib

/-
Formal model of the XP calculator in `src/app/page.tsx`.

Modelling conventions:
* JavaScript numbers are modelled as `ℚ` (exact rationals); schedule counts,
  which the UI constrains to non-negative integers, are `ℕ`; values produced
  by `Math.floor` / `Math.round` are `ℤ`.
* `Math.sin` is not a rational function, so it is abstracted as an arbitrary
  parameter `sinq : ℚ → ℚ`; theorems that need it assume only `|sinq x| ≤ 1`,
  which IEEE `Math.sin` satisfies.  This keeps every definition computable.
* `Math.round` rounds half away from zero upward, i.e. `⌊x + 1/2⌋`, which is
  exactly Mathlib's `round` on `ℚ`.
-/

namespace XPCalc

/-- Outcome rank of a single simulated game. -/
inductive Placement where
  | first
  | second
  | third
  | participation
deriving DecidableEq, Repr

/-- The four placement probabilities of a player profile
(`playerProfiles[...].distribution` in the source). -/
structure Distribution where
  first : ℚ
  second : ℚ
  third : ℚ
  participation : ℚ
deriving DecidableEq, Repr

/-- Points per cadence-day by placement (`firstPlacePointsPerDay`, ...). -/
structure PointsConfig where
  first : ℚ
  second : ℚ
  third : ℚ
  participation : ℚ
deriving DecidableEq, Repr

/-- Polynomial leveling-curve coefficients (`polyA`, `polyB`, `polyC`,
`polyMultiplier`). -/
structure LevelCurve where
  a : ℚ
  b : ℚ
  c : ℚ
  multiplier : ℚ
deriving DecidableEq, Repr

/-- The four enumerated player profiles. -/
inductive PlayerProfile where
  | winsEverything
  | exceptional
  | average
  | looser
deriving DecidableEq, Repr

/-- The preset distribution attached to each profile (`playerProfiles`). -/
def profileDistribution : PlayerProfile → Distribution
  | .winsEverything => ⟨1, 0, 0, 0⟩
  | .exceptional => ⟨0.50, 0.25, 0.25, 0⟩
  | .average => ⟨0.20, 0.20, 0.30, 0.30⟩
  | .looser => ⟨0, 0, 0, 1⟩

/-- Profile seed offset used for weekly games
(`selectedProfile === 'wins-everything' ? 1 : ... ? 2 : ... ? 3 : 4`). -/
def weeklySeedOffset : PlayerProfile → ℤ
  | .winsEverything => 1
  | .exceptional => 2
  | .average => 3
  | .looser => 4

/-- Profile seed offset used for monthly games (100/200/300/400). -/
def monthlySeedOffset : PlayerProfile → ℤ
  | .winsEverything => 100
  | .exceptional => 200
  | .average => 300
  | .looser => 400

/-- `seedRandom` from `chartData`:
`x = Math.sin(seed) * 10000; return x - Math.floor(x)`. -/
def seedRandom (sinq : ℚ → ℚ) (seed : ℚ) : ℚ :=
  let x := sinq seed * 10000
  x - ⌊x⌋

/-- `rollPlacement` from `chartData`: classify the rolled fraction into the
four contiguous probability bands, in the order first/second/third, with
participation absorbing the remainder. -/
def rollPlacement (dist : Distribution) (sinq : ℚ → ℚ) (seed : ℚ) : Placement :=
  let roll := seedRandom sinq seed
  if roll < dist.first then .first
  else if roll < dist.first + dist.second then .second
  else if roll < dist.first + dist.second + dist.third then .third
  else .participation

/-- `getPointsForPlacement`: points scale with the game duration except for
participation. -/
def getPointsForPlacement (pts : PointsConfig) (p : Placement) (gameDuration : ℚ) : ℚ :=
  match p with
  | .first => pts.first * gameDuration
  | .second => pts.second * gameDuration
  | .third => pts.third * gameDuration
  | .participation => pts.participation

/-- `calculateXPForLevel`:
`Math.max(1, Math.floor((a·level² + b·level + c) · multiplier))`. -/
def calculateXPForLevel (c : LevelCurve) (level : ℕ) : ℤ :=
  max 1 ⌊(c.a * (level : ℚ) ^ 2 + c.b * level + c.c) * c.multiplier⌋

/-- `calculateTotalXPToLevel`: the for-loop `for level = 1..targetLevel`
accumulating `calculateXPForLevel(level)`. -/
def calculateTotalXPToLevel (c : LevelCurve) (targetLevel : ℕ) : ℤ :=
  ∑ l ∈ Finset.range targetLevel, calculateXPForLevel c (l + 1)

/-- The while-loop of `calculateLevelFromXP`, with the loop state
`(level, xpUsed)` made explicit.  It terminates because each iteration grows
`xpUsed` by `calculateXPForLevel ... ≥ 1` while remaining `≤ totalXP`. -/
def levelLoop (c : LevelCurve) (totalXP : ℚ) (level : ℕ) (xpUsed : ℤ) : ℕ :=
  if h : ((xpUsed + calculateXPForLevel c level : ℤ) : ℚ) ≤ totalXP then
    levelLoop c totalXP (level + 1) (xpUsed + calculateXPForLevel c level)
  else level
termination_by (⌊totalXP⌋ - xpUsed).toNat
decreasing_by
  have hfl : xpUsed + calculateXPForLevel c level ≤ ⌊totalXP⌋ := Int.le_floor.mpr h
  have h1 : (1 : ℤ) ≤ calculateXPForLevel c level := le_max_left _ _
  omega

/-- Ghost instrumentation of the same while loop, counting the number of
iterations it performs (used for the resource-bound claim). -/
def levelLoopSteps (c : LevelCurve) (totalXP : ℚ) (level : ℕ) (xpUsed : ℤ) : ℕ :=
  if h : ((xpUsed + calculateXPForLevel c level : ℤ) : ℚ) ≤ totalXP then
    levelLoopSteps c totalXP (level + 1) (xpUsed + calculateXPForLevel c level) + 1
  else 0
termination_by (⌊totalXP⌋ - xpUsed).toNat
decreasing_by
  have hfl : xpUsed + calculateXPForLevel c level ≤ ⌊totalXP⌋ := Int.le_floor.mpr h
  have h1 : (1 : ℤ) ≤ calculateXPForLevel c level := le_max_left _ _
  omega

/-- `calculateLevelFromXP`: greedy forward scan starting at `level = 1`,
`xpUsed = 0`, returning `level - 1`. -/
def calculateLevelFromXP (c : LevelCurve) (totalXP : ℚ) : ℕ :=
  levelLoop c totalXP 1 0 - 1

/-- All inputs of the year simulation in `chartData` (schedule counts,
points, the active profile's distribution, the selected profile, the curve,
and the ambient `Math.sin`). -/
structure SimConfig where
  sinq : ℚ → ℚ
  dailyGames : ℕ
  weeklyGames : ℕ
  monthlyGames : ℕ
  points : PointsConfig
  dist : Distribution
  profile : PlayerProfile
  curve : LevelCurve

/-- `month = Math.floor((day - 1) / 30.44)` from `chartData`.  (For
`day ∈ [1,365]` the double-precision quotient is never within rounding
distance of an integer except at `day = 1`, where it is exactly 0, so the
exact rational floor agrees with the JS computation.) -/
def monthOfDay (day : ℕ) : ℤ :=
  ⌊((day : ℚ) - 1) / 30.44⌋

/-- `getSeasonalMultiplier`:
`month >= 5 && month <= 7 ? 0.8 : month >= 10 || month <= 1 ? 1.2 : 1.0`. -/
def getSeasonalMultiplier (month : ℤ) : ℚ :=
  if 5 ≤ month ∧ month ≤ 7 then 0.8
  else if 10 ≤ month ∨ month ≤ 1 then 1.2
  else 1.0

/-- `getDailyVariation`: `0.85 + Math.sin(day * 0.1) * 0.15`. -/
def getDailyVariation (sinq : ℚ → ℚ) (day : ℕ) : ℚ :=
  0.85 + sinq ((day : ℚ) * 0.1) * 0.15

/-- `Math.floor(gameCount * distribution.first)` in `calculateGameTypePoints`. -/
def firstPlaceGames (dist : Distribution) (gameCount : ℤ) : ℤ :=
  ⌊(gameCount : ℚ) * dist.first⌋

/-- `Math.floor(gameCount * distribution.second)` in `calculateGameTypePoints`. -/
def secondPlaceGames (dist : Distribution) (gameCount : ℤ) : ℤ :=
  ⌊(gameCount : ℚ) * dist.second⌋

/-- `Math.floor(gameCount * distribution.third)` in `calculateGameTypePoints`. -/
def thirdPlaceGames (dist : Distribution) (gameCount : ℤ) : ℤ :=
  ⌊(gameCount : ℚ) * dist.third⌋

/-- The remainder bucket
`gameCount - firstPlaceGames - secondPlaceGames - thirdPlaceGames`. -/
def participationGames (dist : Distribution) (gameCount : ℤ) : ℤ :=
  gameCount - firstPlaceGames dist gameCount - secondPlaceGames dist gameCount
    - thirdPlaceGames dist gameCount

/-- `calculateGameTypePoints`: statistical split of a game count into
placement buckets; participation points do not scale with duration. -/
def calculateGameTypePoints (pts : PointsConfig) (gameCount : ℤ)
    (dist : Distribution) (gameDuration : ℚ) : ℚ :=
  (firstPlaceGames dist gameCount : ℚ) * pts.first * gameDuration
    + (secondPlaceGames dist gameCount : ℚ) * pts.second * gameDuration
    + (thirdPlaceGames dist gameCount : ℚ) * pts.third * gameDuration
    + (participationGames dist gameCount : ℚ) * pts.participation

/-- `adjustedDailyGames = Math.round(dailyGames * (5/7) *
getSeasonalMultiplier(month) * getDailyVariation(day))`. -/
def adjustedDailyGames (cfg : SimConfig) (day : ℕ) : ℤ :=
  round ((cfg.dailyGames : ℚ) * (5 / 7) * getSeasonalMultiplier (monthOfDay day)
    * getDailyVariation cfg.sinq day)

/-- `adjustedWeeklyGames = Math.round(weeklyGames * getSeasonalMultiplier(month)
* getDailyVariation(day))`. -/
def adjustedWeeklyGames (cfg : SimConfig) (day : ℕ) : ℤ :=
  round ((cfg.weeklyGames : ℚ) * getSeasonalMultiplier (monthOfDay day)
    * getDailyVariation cfg.sinq day)

/-- `adjustedMonthlyGames = Math.round(monthlyGames *
getSeasonalMultiplier(month))` (no daily-variation factor). -/
def adjustedMonthlyGames (cfg : SimConfig) (day : ℕ) : ℤ :=
  round ((cfg.monthlyGames : ℚ) * getSeasonalMultiplier (monthOfDay day))

/-- The simulator's per-game weekly roll: seed
`weekCount * 1000 + gameIndex + (1|2|3|4 per profile)` fed to its
`rollPlacement`. -/
def simWeeklyPlacement (dist : Distribution) (sinq : ℚ → ℚ)
    (profile : PlayerProfile) (weekCount gameIndex : ℕ) : Placement :=
  rollPlacement dist sinq
    (((weekCount : ℤ) * 1000 + gameIndex + weeklySeedOffset profile : ℤ) : ℚ)

/-- The simulator's per-game monthly roll: seed
`monthCount * 10000 + gameIndex + (100|200|300|400 per profile)`. -/
def simMonthlyPlacement (dist : Distribution) (sinq : ℚ → ℚ)
    (profile : PlayerProfile) (monthCount gameIndex : ℕ) : Placement :=
  rollPlacement dist sinq
    (((monthCount : ℤ) * 10000 + gameIndex + monthlySeedOffset profile : ℤ) : ℚ)

/-- Daily-cadence contribution of one day (`if (dailyGames > 0) { ... }`
block of `chartData`). -/
def dailyContribution (cfg : SimConfig) (day : ℕ) : ℚ :=
  if 0 < cfg.dailyGames then
    calculateGameTypePoints cfg.points (adjustedDailyGames cfg day) cfg.dist 1
  else 0

/-- Weekly-cadence contribution of one day
(`if (dayOfWeek === 0 && weeklyGames > 0) { ... }` block): one individually
seeded roll per adjusted game, scaled by the weekly duration 7.  A negative
rounded count runs the loop zero times, matching the JS `for` loop. -/
def weeklyContribution (cfg : SimConfig) (weekCount day : ℕ) : ℚ :=
  if day % 7 = 0 ∧ 0 < cfg.weeklyGames then
    ∑ g ∈ Finset.range (adjustedWeeklyGames cfg day).toNat,
      getPointsForPlacement cfg.points
        (simWeeklyPlacement cfg.dist cfg.sinq cfg.profile weekCount g) 7
  else 0

/-- Monthly-cadence contribution of one day
(`if (isMonthEnd && monthlyGames > 0) { ... }` block): one individually
seeded roll per adjusted game, scaled by the monthly duration 30. -/
def monthlyContribution (cfg : SimConfig) (monthCount day : ℕ) : ℚ :=
  if day % 30 = 0 ∧ 0 < cfg.monthlyGames then
    ∑ g ∈ Finset.range (adjustedMonthlyGames cfg day).toNat,
      getPointsForPlacement cfg.points
        (simMonthlyPlacement cfg.dist cfg.sinq cfg.profile monthCount g) 30
  else 0

/-- Mutable state of the `days.forEach` loop in `chartData`. -/
structure SimState where
  cumulativePoints : ℚ
  weekCount : ℕ
  monthCount : ℕ
  dailyPointsData : List ℚ
  dailyLevelsData : List ℕ

/-- Loop state before day 1. -/
def initState : SimState :=
  { cumulativePoints := 0, weekCount := 0, monthCount := 0
    dailyPointsData := [], dailyLevelsData := [] }

/-- One iteration of the `days.forEach` body: bump the occurrence counters on
their trigger days, add the three cadence contributions to the running total,
and push the cumulative total and the level derived from it. -/
def stepDay (cfg : SimConfig) (st : SimState) (day : ℕ) : SimState :=
  let weekCount := if day % 7 = 0 ∧ 0 < cfg.weeklyGames then st.weekCount + 1
    else st.weekCount
  let monthCount := if day % 30 = 0 ∧ 0 < cfg.monthlyGames then st.monthCount + 1
    else st.monthCount
  let totalDailyPoints := dailyContribution cfg day
    + weeklyContribution cfg weekCount day + monthlyContribution cfg monthCount day
  let cum := st.cumulativePoints + totalDailyPoints
  { cumulativePoints := cum
    weekCount := weekCount
    monthCount := monthCount
    dailyPointsData := st.dailyPointsData ++ [cum]
    dailyLevelsData := st.dailyLevelsData ++ [calculateLevelFromXP cfg.curve cum] }

/-- Loop state after the first `n` days (days are 1-indexed). -/
def simStateAfter (cfg : SimConfig) (n : ℕ) : SimState :=
  (List.range n).foldl (fun st i => stepDay cfg st (i + 1)) initState

/-- The whole `days.forEach` loop over days 1..365. -/
def simulateYear (cfg : SimConfig) : SimState :=
  simStateAfter cfg 365

/-- `totalGamesPerYear = dailyGames*365 + weeklyGames*52 + monthlyGames*12`. -/
def totalGamesPerYear (cfg : SimConfig) : ℕ :=
  cfg.dailyGames * 365 + cfg.weeklyGames * 52 + cfg.monthlyGames * 12

/-- `totalPointsPerYear = chartData.datasets[0].data[364] || 0`. -/
def totalPointsPerYear (cfg : SimConfig) : ℚ :=
  ((simulateYear cfg).dailyPointsData.getD 364 0)

/-- JavaScript number division: a zero divisor yields NaN (`0/0`) or
±Infinity (`x/0`); the non-finite results are modelled as `none`. -/
def jsDiv (p q : ℚ) : Option ℚ :=
  if q = 0 then none else some (p / q)

/-- `avgPointsPerGame = Math.round(totalPointsPerYear / totalGamesPerYear)`;
`Math.round` of a non-finite number stays non-finite (`none`). -/
def avgPointsPerGame (cfg : SimConfig) : Option ℤ :=
  (jsDiv (totalPointsPerYear cfg) (totalGamesPerYear cfg)).map round

/-- The annotation generator's private copy of `seedRandom`
(`generateGameAnnotations` re-declares an identical closure). -/
def annSeedRandom (sinq : ℚ → ℚ) (seed : ℚ) : ℚ :=
  let x := sinq seed * 10000
  x - ⌊x⌋

/-- The annotation generator's private copy of `rollPlacement`. -/
def annRollPlacement (dist : Distribution) (sinq : ℚ → ℚ) (seed : ℚ) : Placement :=
  let roll := annSeedRandom sinq seed
  if roll < dist.first then .first
  else if roll < dist.first + dist.second then .second
  else if roll < dist.first + dist.second + dist.third then .third
  else .participation

/-- The annotation generator's weekly roll, seed
`weekCount * 1000 + gameIndex + (1|2|3|4 per profile)`. -/
def annWeeklyPlacement (dist : Distribution) (sinq : ℚ → ℚ)
    (profile : PlayerProfile) (weekCount gameIndex : ℕ) : Placement :=
  annRollPlacement dist sinq
    (((weekCount : ℤ) * 1000 + gameIndex + weeklySeedOffset profile : ℤ) : ℚ)

/-- The annotation generator's monthly roll, seed
`monthCount * 10000 + gameIndex + (100|200|300|400 per profile)`. -/
def annMonthlyPlacement (dist : Distribution) (sinq : ℚ → ℚ)
    (profile : PlayerProfile) (monthCount gameIndex : ℕ) : Placement :=
  annRollPlacement dist sinq
    (((monthCount : ℤ) * 10000 + gameIndex + monthlySeedOffset profile : ℤ) : ℚ)

/-- The weekly marker events of `generateGameAnnotations`: the loop
`for (day = 7; day <= 365; day += 7)` visits the 52 multiples of 7 below 365
with `weekCount` equal to `day / 7`, and rolls exactly `weeklyGames`
(nominal, unadjusted) games per occurrence.  Each event is
`(day, gameIndex, placement)`. -/
def weeklyAnnotationEvents (dist : Distribution) (sinq : ℚ → ℚ)
    (profile : PlayerProfile) (weeklyGames : ℕ) : List (ℕ × ℕ × Placement) :=
  if 0 < weeklyGames then
    ((List.range 52).map fun i =>
      (List.range weeklyGames).map fun g =>
        (7 * (i + 1), g, annWeeklyPlacement dist sinq profile (i + 1) g)).flatten
  else []

/-- The monthly marker events of `generateGameAnnotations`: the loop
`for (day = 30; day <= 365; day += 30)` visits the 12 multiples of 30 below
365 with `monthCount` equal to `day / 30`, rolling exactly `monthlyGames`
games per occurrence. -/
def monthlyAnnotationEvents (dist : Distribution) (sinq : ℚ → ℚ)
    (profile : PlayerProfile) (monthlyGames : ℕ) : List (ℕ × ℕ × Placement) :=
  if 0 < monthlyGames then
    ((List.range 12).map fun i =>
      (List.range monthlyGames).map fun g =>
        (30 * (i + 1), g, annMonthlyPlacement dist sinq profile (i + 1) g)).flatten
  else []

/-- Result record of `calculateXPProgress`. -/
structure XPProgress where
  currentLevel : ℕ
  xpInLevel : ℚ
  xpNeededForNext : ℤ
  progressPercent : ℚ
deriving Repr

/-- `calculateXPProgress`. -/
def calculateXPProgress (c : LevelCurve) (totalXP : ℚ) : XPProgress :=
  let currentLevel := calculateLevelFromXP c totalXP
  let xpUsedForCompletedLevels := calculateTotalXPToLevel c currentLevel
  let xpInLevel := totalXP - xpUsedForCompletedLevels
  let xpNeededForNext := calculateXPForLevel c (currentLevel + 1)
  { currentLevel := currentLevel
    xpInLevel := xpInLevel
    xpNeededForNext := xpNeededForNext
    progressPercent := xpInLevel / (xpNeededForNext : ℚ) * 100 }

/-- The spec's formula for the XP curve, written exactly as §4.2 states it:
`floor(max(1, (a·level² + b·level + c) · multiplier))` (to be compared with
the source's `max(1, floor(...))`). -/
def specXpForLevel (c : LevelCurve) (level : ℕ) : ℤ :=
  ⌊max 1 ((c.a * (level : ℚ) ^ 2 + c.b * level + c.c) * c.multiplier)⌋

/-- A named configuration used to instantiate theorems on concrete data:
`Math.sin` replaced by the constant-zero function (which satisfies
`|sin x| ≤ 1`). -/
def sinZero : ℚ → ℚ := fun _ => 0

lemma seedRandom_eq_fract (sinq : ℚ → ℚ) (seed : ℚ) :
    seedRandom sinq seed = Int.fract (sinq seed * 10000) := rfl

lemma seedRandom_nonneg (sinq : ℚ → ℚ) (seed : ℚ) : 0 ≤ seedRandom sinq seed := by
  rw [seedRandom_eq_fract]; exact Int.fract_nonneg _

lemma seedRandom_lt_one (sinq : ℚ → ℚ) (seed : ℚ) : seedRandom sinq seed < 1 := by
  rw [seedRandom_eq_fract]; exact Int.fract_lt_one _

lemma rollPlacement_all_first (sinq : ℚ → ℚ) (seed : ℚ) :
    rollPlacement ⟨1, 0, 0, 0⟩ sinq seed = .first := by
  unfold rollPlacement
  rw [if_pos (seedRandom_lt_one sinq seed)]

lemma rollPlacement_all_participation (sinq : ℚ → ℚ) (seed : ℚ) :
    rollPlacement ⟨0, 0, 0, 1⟩ sinq seed = .participation := by
  have h := seedRandom_nonneg sinq seed
  unfold rollPlacement
  rw [if_neg (by simpa using not_lt.mpr h), if_neg (by simpa using not_lt.mpr h),
    if_neg (by simpa using not_lt.mpr h)]

/-- **C6.** For every integer seed (including negative ones), the roll under
the degenerate distribution `{first: 1.0}` returns `first` and under
`{participation: 1.0}` returns `participation`, because the derived fraction
`frac(sin(seed)·10000)` always lies in `[0, 1)`. -/
theorem c6_roll_degenerate (sinq : ℚ → ℚ) (s : ℤ) :
    (0 ≤ seedRandom sinq (s : ℚ) ∧ seedRandom sinq (s : ℚ) < 1) ∧
    rollPlacement ⟨1, 0, 0, 0⟩ sinq (s : ℚ) = .first ∧
    rollPlacement ⟨0, 0, 0, 1⟩ sinq (s : ℚ) = .participation :=
  ⟨⟨seedRandom_nonneg sinq s, seedRandom_lt_one sinq s⟩,
    rollPlacement_all_first sinq s, rollPlacement_all_participation sinq s⟩

/-- **C4.** For every level `L ≥ 1` and any coefficients, the source's
`max(1, floor((a·L² + b·L + c)·multiplier))` equals the spec's
`floor(max(1, (a·L² + b·L + c)·multiplier))`, and the result is an integer
`≥ 1`. -/
theorem c4_xpForLevel_spec (c : LevelCurve) (L : ℕ) (h : 1 ≤ L) :
    calculateXPForLevel c L = specXpForLevel c L ∧ 1 ≤ calculateXPForLevel c L := by
  constructor
  · have hmax : ∀ a b : ℚ, ⌊max a b⌋ = max ⌊a⌋ ⌊b⌋ := fun a b => Int.floor_mono.map_max
    unfold calculateXPForLevel specXpForLevel
    rw [hmax, Int.floor_one]
  · exact le_max_left _ _

/-- **C4 witness.** -/
theorem c4_xpForLevel_spec_witness :
    1 ≤ 1 ∧ (calculateXPForLevel ⟨0, 0, 5, 1⟩ 1 = specXpForLevel ⟨0, 0, 5, 1⟩ 1 ∧
      1 ≤ calculateXPForLevel ⟨0, 0, 5, 1⟩ 1) :=
  ⟨by norm_num, c4_xpForLevel_spec ⟨0, 0, 5, 1⟩ 1 (by norm_num)⟩

lemma totalXP_zero (c : LevelCurve) : calculateTotalXPToLevel c 0 = 0 := by
  simp [calculateTotalXPToLevel]

lemma totalXP_succ (c : LevelCurve) (N : ℕ) :
    calculateTotalXPToLevel c (N + 1)
      = calculateTotalXPToLevel c N + calculateXPForLevel c (N + 1) := by
  unfold calculateTotalXPToLevel
  exact Finset.sum_range_succ _ _

lemma totalXP_eq_Icc (c : LevelCurve) (N : ℕ) :
    calculateTotalXPToLevel c N = ∑ l ∈ Finset.Icc 1 N, calculateXPForLevel c l := by
  induction N with
  | zero => simp [totalXP_zero]
  | succ N ih =>
    rw [totalXP_succ, ih, Finset.sum_Icc_succ_top (by omega)]

/-- **C7.** `totalXpToReachLevel(0) = 0`, and for `N ≥ 1` the total satisfies
the recurrence `total(N) = total(N-1) + xpForLevel(N)`; equivalently it is
the sum of `xpForLevel(L)` for `L = 1..N` inclusive. -/
theorem c7_totalXP_recurrence (c : LevelCurve) :
    calculateTotalXPToLevel c 0 = 0 ∧
    ∀ N : ℕ, 1 ≤ N →
      calculateTotalXPToLevel c N
          = calculateTotalXPToLevel c (N - 1) + calculateXPForLevel c N ∧
      calculateTotalXPToLevel c N = ∑ l ∈ Finset.Icc 1 N, calculateXPForLevel c l := by
  refine ⟨totalXP_zero c, fun N hN => ⟨?_, totalXP_eq_Icc c N⟩⟩
  obtain ⟨M, rfl⟩ : ∃ M, N = M + 1 := ⟨N - 1, by omega⟩
  simpa using totalXP_succ c M

/-- **C7 witness.** -/
theorem c7_totalXP_recurrence_witness :
    1 ≤ 1 ∧
    (calculateTotalXPToLevel ⟨0, 0, 5, 1⟩ 1
        = calculateTotalXPToLevel ⟨0, 0, 5, 1⟩ 0 + calculateXPForLevel ⟨0, 0, 5, 1⟩ 1 ∧
      calculateTotalXPToLevel ⟨0, 0, 5, 1⟩ 1
        = ∑ l ∈ Finset.Icc 1 1, calculateXPForLevel ⟨0, 0, 5, 1⟩ l) :=
  ⟨by norm_num, (c7_totalXP_recurrence ⟨0, 0, 5, 1⟩).2 1 (by norm_num)⟩

/-- **C10.** For a non-negative game count and non-negative probabilities
summing to at most 1, the four buckets of the statistical split are
non-negative and sum exactly to the count; and the participation bucket (and
hence participation points) can be positive even when the distribution's
participation probability is 0, as the three floors drop their fractional
remainders. -/
theorem c10_bucket_invariant :
    (∀ (dist : Distribution) (n : ℤ), 0 ≤ n →
      0 ≤ dist.first → 0 ≤ dist.second → 0 ≤ dist.third → 0 ≤ dist.participation →
      dist.first + dist.second + dist.third + dist.participation ≤ 1 →
      0 ≤ firstPlaceGames dist n ∧ 0 ≤ secondPlaceGames dist n ∧
      0 ≤ thirdPlaceGames dist n ∧ 0 ≤ participationGames dist n ∧
      firstPlaceGames dist n + secondPlaceGames dist n + thirdPlaceGames dist n
          + participationGames dist n = n) ∧
    ((Distribution.mk (1/4) (1/4) (1/4) 0).participation = 0 ∧
      0 < participationGames ⟨1/4, 1/4, 1/4, 0⟩ 2 ∧
      0 < calculateGameTypePoints ⟨5, 3, 2, 1⟩ 2 ⟨1/4, 1/4, 1/4, 0⟩ 1) := by
  constructor
  · intro dist n hn h1 h2 h3 h4 hsum
    have hnq : (0 : ℚ) ≤ (n : ℚ) := by exact_mod_cast hn
    have hf : 0 ≤ firstPlaceGames dist n := Int.floor_nonneg.mpr (mul_nonneg hnq h1)
    have hs : 0 ≤ secondPlaceGames dist n := Int.floor_nonneg.mpr (mul_nonneg hnq h2)
    have ht : 0 ≤ thirdPlaceGames dist n := Int.floor_nonneg.mpr (mul_nonneg hnq h3)
    have hsum3 : dist.first + dist.second + dist.third ≤ 1 := by linarith
    have hfq : (firstPlaceGames dist n : ℚ) ≤ n * dist.first := Int.floor_le _
    have hsq : (secondPlaceGames dist n : ℚ) ≤ n * dist.second := Int.floor_le _
    have htq : (thirdPlaceGames dist n : ℚ) ≤ n * dist.third := Int.floor_le _
    have hle : ((firstPlaceGames dist n + secondPlaceGames dist n
        + thirdPlaceGames dist n : ℤ) : ℚ) ≤ (n : ℚ) := by
      push_cast
      nlinarith
    have hle' : firstPlaceGames dist n + secondPlaceGames dist n
        + thirdPlaceGames dist n ≤ n := by exact_mod_cast hle
    refine ⟨hf, hs, ht, ?_, ?_⟩
    · unfold participationGames; omega
    · unfold participationGames; ring
  · refine ⟨rfl, ?_, ?_⟩
    · norm_num [participationGames, firstPlaceGames, secondPlaceGames, thirdPlaceGames]
    · norm_num [calculateGameTypePoints, participationGames, firstPlaceGames,
        secondPlaceGames, thirdPlaceGames]

/-- **C10 witness.** -/
theorem c10_bucket_invariant_witness :
    0 ≤ (4 : ℤ) ∧ (0 : ℚ) ≤ 1/4 ∧
    ((1 : ℚ)/4 + 1/4 + 1/4 + 1/4 ≤ 1) ∧
    (0 ≤ participationGames ⟨1/4, 1/4, 1/4, 1/4⟩ 4 ∧
      firstPlaceGames ⟨1/4, 1/4, 1/4, 1/4⟩ 4 + secondPlaceGames ⟨1/4, 1/4, 1/4, 1/4⟩ 4
          + thirdPlaceGames ⟨1/4, 1/4, 1/4, 1/4⟩ 4
          + participationGames ⟨1/4, 1/4, 1/4, 1/4⟩ 4 = 4) := by
  have h := c10_bucket_invariant.1 ⟨1/4, 1/4, 1/4, 1/4⟩ 4 (by norm_num) (by norm_num)
    (by norm_num) (by norm_num) (by norm_num) (by norm_num)
  exact ⟨by norm_num, by norm_num, by norm_num, h.2.2.2⟩

/-- **C8.** `totalGamesPerYear = 0` holds exactly when all three schedule
counts are zero; in that case the reference's average-per-game division
produces a non-finite value (NaN/Infinity, modelled as `none`) rather than a
defined number, while for a positive total it returns
`round(totalPointsPerYear / totalGamesPerYear)`. -/
theorem c8_avgPointsPerGame (cfg : SimConfig) :
    (totalGamesPerYear cfg = 0
        ↔ cfg.dailyGames = 0 ∧ cfg.weeklyGames = 0 ∧ cfg.monthlyGames = 0) ∧
    (totalGamesPerYear cfg = 0 → avgPointsPerGame cfg = none) ∧
    (0 < totalGamesPerYear cfg →
      avgPointsPerGame cfg
        = some (round (totalPointsPerYear cfg / (totalGamesPerYear cfg : ℚ)))) := by
  refine ⟨?_, ?_, ?_⟩
  · unfold totalGamesPerYear; omega
  · intro h
    simp [avgPointsPerGame, jsDiv, h]
  · intro h
    have hne : ((totalGamesPerYear cfg : ℚ)) ≠ 0 := Nat.cast_ne_zero.mpr h.ne'
    simp [avgPointsPerGame, jsDiv, hne]

/-- A concrete configuration with every schedule count zero. -/
def cfgZeroSchedule : SimConfig :=
  { sinq := sinZero, dailyGames := 0, weeklyGames := 0, monthlyGames := 0
    points := ⟨5, 3, 2, 1⟩, dist := ⟨1, 0, 0, 0⟩, profile := .winsEverything
    curve := ⟨0.035, 2.5, 10, 0.5⟩ }

/-- A concrete configuration with one weekly and one monthly game. -/
def cfgWeeklyOne : SimConfig :=
  { sinq := sinZero, dailyGames := 0, weeklyGames := 1, monthlyGames := 1
    points := ⟨5, 3, 2, 1⟩, dist := ⟨1, 0, 0, 0⟩, profile := .winsEverything
    curve := ⟨0.035, 2.5, 10, 0.5⟩ }

/-- **C8 witness.** -/
theorem c8_avgPointsPerGame_witness :
    totalGamesPerYear cfgZeroSchedule = 0 ∧ avgPointsPerGame cfgZeroSchedule = none ∧
    0 < totalGamesPerYear cfgWeeklyOne ∧
    avgPointsPerGame cfgWeeklyOne
      = some (round (totalPointsPerYear cfgWeeklyOne / (totalGamesPerYear cfgWeeklyOne : ℚ))) := by
  have hz : totalGamesPerYear cfgZeroSchedule = 0 := rfl
  have hp : 0 < totalGamesPerYear cfgWeeklyOne := by decide
  exact ⟨hz, (c8_avgPointsPerGame cfgZeroSchedule).2.1 hz, hp,
    (c8_avgPointsPerGame cfgWeeklyOne).2.2 hp⟩

lemma levelLoop_stop (c : LevelCurve) (x : ℚ) (level : ℕ) (xpUsed : ℤ)
    (h : ¬ ((xpUsed + calculateXPForLevel c level : ℤ) : ℚ) ≤ x) :
    levelLoop c x level xpUsed = level := by
  rw [levelLoop.eq_def, dif_neg h]

lemma levelLoop_go (c : LevelCurve) (x : ℚ) (level : ℕ) (xpUsed : ℤ)
    (h : ((xpUsed + calculateXPForLevel c level : ℤ) : ℚ) ≤ x) :
    levelLoop c x level xpUsed
      = levelLoop c x (level + 1) (xpUsed + calculateXPForLevel c level) := by
  conv_lhs => rw [levelLoop.eq_def]
  rw [dif_pos h]

lemma levelLoopSteps_stop (c : LevelCurve) (x : ℚ) (level : ℕ) (xpUsed : ℤ)
    (h : ¬ ((xpUsed + calculateXPForLevel c level : ℤ) : ℚ) ≤ x) :
    levelLoopSteps c x level xpUsed = 0 := by
  rw [levelLoopSteps.eq_def, dif_neg h]

lemma levelLoopSteps_go (c : LevelCurve) (x : ℚ) (level : ℕ) (xpUsed : ℤ)
    (h : ((xpUsed + calculateXPForLevel c level : ℤ) : ℚ) ≤ x) :
    levelLoopSteps c x level xpUsed
      = levelLoopSteps c x (level + 1) (xpUsed + calculateXPForLevel c level) + 1 := by
  conv_lhs => rw [levelLoopSteps.eq_def]
  rw [dif_pos h]

lemma levelFromXP_lt_first (c : LevelCurve) (x : ℚ)
    (h : x < ((calculateXPForLevel c 1 : ℤ) : ℚ)) : calculateLevelFromXP c x = 0 := by
  unfold calculateLevelFromXP
  rw [levelLoop_stop]
  push_cast
  linarith

lemma one_le_xp_cast (c : LevelCurve) (level : ℕ) :
    (1 : ℚ) ≤ ((calculateXPForLevel c level : ℤ) : ℚ) := by
  have h : (1 : ℤ) ≤ calculateXPForLevel c level := le_max_left _ _
  exact_mod_cast h

lemma levelFromXP_zero (c : LevelCurve) : calculateLevelFromXP c 0 = 0 :=
  levelFromXP_lt_first c 0 (lt_of_lt_of_le one_pos (one_le_xp_cast c 1))

lemma simStateAfter_succ (cfg : SimConfig) (n : ℕ) :
    simStateAfter cfg (n + 1) = stepDay cfg (simStateAfter cfg n) (n + 1) := by
  unfold simStateAfter
  rw [List.range_succ, List.foldl_append]
  rfl

lemma simStateAfter_allZero (cfg : SimConfig) (h1 : cfg.dailyGames = 0)
    (h2 : cfg.weeklyGames = 0) (h3 : cfg.monthlyGames = 0) (n : ℕ) :
    simStateAfter cfg n
      = ⟨0, 0, 0, List.replicate n 0,
          List.replicate n (calculateLevelFromXP cfg.curve 0)⟩ := by
  induction n with
  | zero => rfl
  | succ n ih =>
    rw [simStateAfter_succ, ih]
    simp [stepDay, dailyContribution, weeklyContribution, monthlyContribution,
      h1, h2, h3, List.replicate_succ']

/-- **C5.** With all three schedule counts zero, the simulated year is 365
days of cumulative total 0 and of the level corresponding to 0 XP (which is
level 0), for any distribution, points, and curve coefficients. -/
theorem c5_allZero_schedule (cfg : SimConfig) (h1 : cfg.dailyGames = 0)
    (h2 : cfg.weeklyGames = 0) (h3 : cfg.monthlyGames = 0) :
    (simulateYear cfg).dailyPointsData = List.replicate 365 0 ∧
    (simulateYear cfg).dailyLevelsData
        = List.replicate 365 (calculateLevelFromXP cfg.curve 0) ∧
    calculateLevelFromXP cfg.curve 0 = 0 := by
  unfold simulateYear
  rw [simStateAfter_allZero cfg h1 h2 h3 365]
  exact ⟨rfl, rfl, levelFromXP_zero cfg.curve⟩

/-- **C5 witness.** -/
theorem c5_allZero_schedule_witness :
    cfgZeroSchedule.dailyGames = 0 ∧ cfgZeroSchedule.weeklyGames = 0 ∧
    cfgZeroSchedule.monthlyGames = 0 ∧
    ((simulateYear cfgZeroSchedule).dailyPointsData = List.replicate 365 0 ∧
      (simulateYear cfgZeroSchedule).dailyLevelsData
          = List.replicate 365 (calculateLevelFromXP cfgZeroSchedule.curve 0) ∧
      calculateLevelFromXP cfgZeroSchedule.curve 0 = 0) :=
  ⟨rfl, rfl, rfl, c5_allZero_schedule cfgZeroSchedule rfl rfl rfl⟩

lemma levelLoopSteps_le (c : LevelCurve) (x : ℚ) :
    ∀ n (level : ℕ) (xpUsed : ℤ), (⌊x⌋ - xpUsed).toNat = n →
      levelLoopSteps c x level xpUsed ≤ (⌊x⌋ - xpUsed).toNat := by
  intro n
  induction n using Nat.strong_induction_on with
  | _ n ih =>
    intro level xpUsed hn
    by_cases h : ((xpUsed + calculateXPForLevel c level : ℤ) : ℚ) ≤ x
    · have hfl : xpUsed + calculateXPForLevel c level ≤ ⌊x⌋ := Int.le_floor.mpr h
      have h1 : (1 : ℤ) ≤ calculateXPForLevel c level := le_max_left _ _
      have hlt : (⌊x⌋ - (xpUsed + calculateXPForLevel c level)).toNat < n := by omega
      have hrec := ih _ hlt (level + 1) (xpUsed + calculateXPForLevel c level) rfl
      rw [levelLoopSteps_go c x level xpUsed h]
      omega
    · rw [levelLoopSteps_stop c x level xpUsed h]
      exact Nat.zero_le _

/-- **C9.** `calculateLevelFromXP` is a total function returning a
non-negative integer; the greedy while loop runs at most `⌊totalXP⌋ + 1`
iterations for non-negative input (each iteration grows the consumed XP by
at least 1) and zero iterations for negative input; and any total XP below
`xpForLevel(1)` — in particular every negative input — yields level 0. -/
theorem c9_levelFromXP_total (c : LevelCurve) (x : ℚ) :
    0 ≤ (calculateLevelFromXP c x : ℤ) ∧
    (x < ((calculateXPForLevel c 1 : ℤ) : ℚ) → calculateLevelFromXP c x = 0) ∧
    (0 ≤ x → (levelLoopSteps c x 1 0 : ℤ) ≤ ⌊x⌋ + 1) ∧
    (x < 0 → levelLoopSteps c x 1 0 = 0) := by
  refine ⟨Int.natCast_nonneg _, levelFromXP_lt_first c x, ?_, ?_⟩
  · intro hx
    have h := levelLoopSteps_le c x _ 1 0 rfl
    have h0 : 0 ≤ ⌊x⌋ := Int.floor_nonneg.mpr hx
    omega
  · intro hx
    apply levelLoopSteps_stop
    have h1 := one_le_xp_cast c 1
    push_cast
    linarith

/-- **C9 witness.** -/
theorem c9_levelFromXP_total_witness :
    (2 : ℚ) < ((calculateXPForLevel ⟨0, 0, 5, 1⟩ 1 : ℤ) : ℚ) ∧ (0 : ℚ) ≤ 2 ∧
    calculateLevelFromXP ⟨0, 0, 5, 1⟩ 2 = 0 ∧
    (levelLoopSteps ⟨0, 0, 5, 1⟩ 2 1 0 : ℤ) ≤ ⌊(2 : ℚ)⌋ + 1 := by
  have h1 : (2 : ℚ) < ((calculateXPForLevel ⟨0, 0, 5, 1⟩ 1 : ℤ) : ℚ) := by
    norm_num [calculateXPForLevel]
  have h2 : (0 : ℚ) ≤ 2 := by norm_num
  exact ⟨h1, h2, (c9_levelFromXP_total ⟨0, 0, 5, 1⟩ 2).2.1 h1,
    (c9_levelFromXP_total ⟨0, 0, 5, 1⟩ 2).2.2.1 h2⟩

lemma levelLoop_exact (c : LevelCurve) (N : ℕ) :
    ∀ m k, k ≤ N → N - k = m →
      levelLoop c ((calculateTotalXPToLevel c N : ℤ) : ℚ) (k + 1)
        (calculateTotalXPToLevel c k) = N + 1 := by
  intro m
  induction m with
  | zero =>
    intro k hk hm
    have hkN : k = N := by omega
    subst hkN
    apply levelLoop_stop
    have h1 := one_le_xp_cast c (k + 1)
    push_cast
    linarith
  | succ m ih =>
    intro k hk hm
    have hTk : calculateTotalXPToLevel c k + calculateXPForLevel c (k + 1)
        = calculateTotalXPToLevel c (k + 1) := (totalXP_succ c k).symm
    have hle : calculateTotalXPToLevel c (k + 1) ≤ calculateTotalXPToLevel c N := by
      unfold calculateTotalXPToLevel
      apply Finset.sum_le_sum_of_subset_of_nonneg
      · exact Finset.range_subset.mpr (by omega)
      · intro i _ _
        exact le_trans zero_le_one (le_max_left _ _)
    have hcond : ((calculateTotalXPToLevel c k + calculateXPForLevel c (k + 1) : ℤ) : ℚ)
        ≤ ((calculateTotalXPToLevel c N : ℤ) : ℚ) := by
      rw [hTk]
      exact_mod_cast hle
    rw [levelLoop_go c _ _ _ hcond, hTk]
    exact ih (k + 1) (by omega) (by omega)

/-- **C3.** For every `N ≥ 0` and coefficients making the curve monotonically
increasing over levels `1..N+1`, the inverse round-trips:
`levelFromTotalXp(totalXpToReachLevel(N)) = N`, and `progress` at that exact
boundary reports `currentLevel = N` with `xpInLevel = 0`. -/
theorem c3_roundtrip (c : LevelCurve) (N : ℕ)
    (hmono : ∀ l, 1 ≤ l → l ≤ N →
      calculateXPForLevel c l ≤ calculateXPForLevel c (l + 1)) :
    calculateLevelFromXP c ((calculateTotalXPToLevel c N : ℤ) : ℚ) = N ∧
    (calculateXPProgress c ((calculateTotalXPToLevel c N : ℤ) : ℚ)).currentLevel = N ∧
    (calculateXPProgress c ((calculateTotalXPToLevel c N : ℤ) : ℚ)).xpInLevel = 0 := by
  have key := levelLoop_exact c N N 0 (by omega) (by omega)
  rw [totalXP_zero] at key
  have key' : levelLoop c ((calculateTotalXPToLevel c N : ℤ) : ℚ) 1 0 = N + 1 := by
    simpa using key
  have hlvl : calculateLevelFromXP c ((calculateTotalXPToLevel c N : ℤ) : ℚ) = N := by
    unfold calculateLevelFromXP
    rw [key']
    omega
  refine ⟨hlvl, ?_, ?_⟩
  · simp [calculateXPProgress, hlvl]
  · simp [calculateXPProgress, hlvl]

/-- **C3 witness.** -/
theorem c3_roundtrip_witness :
    (∀ l, 1 ≤ l → l ≤ 2 →
      calculateXPForLevel ⟨0, 0, 5, 1⟩ l ≤ calculateXPForLevel ⟨0, 0, 5, 1⟩ (l + 1)) ∧
    (calculateLevelFromXP ⟨0, 0, 5, 1⟩ ((calculateTotalXPToLevel ⟨0, 0, 5, 1⟩ 2 : ℤ) : ℚ) = 2 ∧
      (calculateXPProgress ⟨0, 0, 5, 1⟩
        ((calculateTotalXPToLevel ⟨0, 0, 5, 1⟩ 2 : ℤ) : ℚ)).currentLevel = 2 ∧
      (calculateXPProgress ⟨0, 0, 5, 1⟩
        ((calculateTotalXPToLevel ⟨0, 0, 5, 1⟩ 2 : ℤ) : ℚ)).xpInLevel = 0) := by
  have hm : ∀ l, 1 ≤ l → l ≤ 2 →
      calculateXPForLevel ⟨0, 0, 5, 1⟩ l ≤ calculateXPForLevel ⟨0, 0, 5, 1⟩ (l + 1) := by
    intro l _ _
    norm_num [calculateXPForLevel]
  exact ⟨hm, c3_roundtrip ⟨0, 0, 5, 1⟩ 2 hm⟩

lemma round_one_of_bounds (v : ℚ) (h1 : 1/2 ≤ v) (h2 : v < 3/2) : round v = 1 := by
  rw [round_eq, Int.floor_eq_iff]
  constructor <;> push_cast <;> linarith

lemma adjustedWeeklyGames_one (cfg : SimConfig) (hs : ∀ q, |cfg.sinq q| ≤ 1)
    (hw : cfg.weeklyGames = 1) (day : ℕ) : adjustedWeeklyGames cfg day = 1 := by
  unfold adjustedWeeklyGames getDailyVariation
  rw [hw]
  obtain ⟨hb1, hb2⟩ := abs_le.mp (hs ((day : ℚ) * 0.1))
  unfold getSeasonalMultiplier
  split_ifs <;> (apply round_one_of_bounds <;> push_cast <;> linarith)

/-- **C2.** In the simulator the weekly-cadence contribution triggers
exactly on days with `d mod 7 = 0`; with `weeklyGames = 1` and distribution
`{first: 1.0}`, every such day contributes exactly one rolled outcome's
points scaled by the weekly duration 7 — `firstPlacePointsPerDay * 7`,
because the rounded effective count `round(1 · seasonal · variation)` is 1
on every day — and days not divisible by 7 contribute zero; the daily step
adds this contribution to the running cumulative total. -/
theorem c2_weekly_contribution (cfg : SimConfig) (hs : ∀ q, |cfg.sinq q| ≤ 1)
    (hw : cfg.weeklyGames = 1) (hd : cfg.dist = ⟨1, 0, 0, 0⟩) (day weekCount : ℕ) :
    (day % 7 = 0 → adjustedWeeklyGames cfg day = 1 ∧
      weeklyContribution cfg weekCount day = cfg.points.first * 7) ∧
    (day % 7 ≠ 0 → weeklyContribution cfg weekCount day = 0) ∧
    (∀ st : SimState, (stepDay cfg st day).cumulativePoints
        = st.cumulativePoints + dailyContribution cfg day
          + weeklyContribution cfg (stepDay cfg st day).weekCount day
          + monthlyContribution cfg (stepDay cfg st day).monthCount day) := by
  refine ⟨fun h7 => ⟨adjustedWeeklyGames_one cfg hs hw day, ?_⟩, fun h7 => ?_, fun st => ?_⟩
  · unfold weeklyContribution
    rw [if_pos ⟨h7, by omega⟩, adjustedWeeklyGames_one cfg hs hw day]
    rw [show ((1 : ℤ).toNat) = 1 from rfl, Finset.sum_range_one]
    unfold simWeeklyPlacement
    rw [hd, rollPlacement_all_first]
    rfl
  · unfold weeklyContribution
    rw [if_neg]
    exact fun hcon => h7 hcon.1
  · simp only [stepDay]
    ring

/-- **C2 witness.** -/
theorem c2_weekly_contribution_witness :
    (∀ q, |cfgWeeklyOne.sinq q| ≤ 1) ∧ cfgWeeklyOne.weeklyGames = 1 ∧
    cfgWeeklyOne.dist = ⟨1, 0, 0, 0⟩ ∧ 7 % 7 = 0 ∧
    (adjustedWeeklyGames cfgWeeklyOne 7 = 1 ∧
      weeklyContribution cfgWeeklyOne 1 7 = cfgWeeklyOne.points.first * 7) := by
  have hs : ∀ q, |cfgWeeklyOne.sinq q| ≤ 1 := fun q => by
    simp [cfgWeeklyOne, sinZero]
  exact ⟨hs, rfl, rfl, rfl,
    (c2_weekly_contribution cfgWeeklyOne hs rfl rfl 7 1).1 rfl⟩

lemma weekCount_after (cfg : SimConfig) (n : ℕ) :
    (simStateAfter cfg n).weekCount = if 0 < cfg.weeklyGames then n / 7 else 0 := by
  induction n with
  | zero => simp [simStateAfter, initState]
  | succ n ih =>
    rw [simStateAfter_succ]
    simp only [stepDay]
    rw [ih]
    split_ifs <;> omega

lemma monthCount_after (cfg : SimConfig) (n : ℕ) :
    (simStateAfter cfg n).monthCount = if 0 < cfg.monthlyGames then n / 30 else 0 := by
  induction n with
  | zero => simp [simStateAfter, initState]
  | succ n ih =>
    rw [simStateAfter_succ]
    simp only [stepDay]
    rw [ih]
    split_ifs <;> omega

lemma simWeekly_eq_annWeekly (dist : Distribution) (sinq : ℚ → ℚ)
    (profile : PlayerProfile) (w g : ℕ) :
    simWeeklyPlacement dist sinq profile w g = annWeeklyPlacement dist sinq profile w g := rfl

lemma simMonthly_eq_annMonthly (dist : Distribution) (sinq : ℚ → ℚ)
    (profile : PlayerProfile) (m g : ℕ) :
    simMonthlyPlacement dist sinq profile m g = annMonthlyPlacement dist sinq profile m g := rfl

lemma mem_weeklyEvents (dist : Distribution) (sinq : ℚ → ℚ) (profile : PlayerProfile)
    (wg w g : ℕ) (hw1 : 1 ≤ w) (hw52 : w ≤ 52) (hg : g < wg) :
    (7 * w, g, annWeeklyPlacement dist sinq profile w g)
      ∈ weeklyAnnotationEvents dist sinq profile wg := by
  unfold weeklyAnnotationEvents
  rw [if_pos (by omega : 0 < wg), List.mem_flatten]
  refine ⟨(List.range wg).map fun g' => (7 * w, g', annWeeklyPlacement dist sinq profile w g'),
    ?_, ?_⟩
  · rw [List.mem_map]
    refine ⟨w - 1, List.mem_range.mpr (by omega), ?_⟩
    have hww : w - 1 + 1 = w := by omega
    rw [hww]
  · rw [List.mem_map]
    exact ⟨g, List.mem_range.mpr hg, rfl⟩

lemma mem_monthlyEvents (dist : Distribution) (sinq : ℚ → ℚ) (profile : PlayerProfile)
    (mg m g : ℕ) (hm1 : 1 ≤ m) (hm12 : m ≤ 12) (hg : g < mg) :
    (30 * m, g, annMonthlyPlacement dist sinq profile m g)
      ∈ monthlyAnnotationEvents dist sinq profile mg := by
  unfold monthlyAnnotationEvents
  rw [if_pos (by omega : 0 < mg), List.mem_flatten]
  refine ⟨(List.range mg).map fun g' => (30 * m, g', annMonthlyPlacement dist sinq profile m g'),
    ?_, ?_⟩
  · rw [List.mem_map]
    refine ⟨m - 1, List.mem_range.mpr (by omega), ?_⟩
    have hmm : m - 1 + 1 = m := by omega
    rw [hmm]
  · rw [List.mem_map]
    exact ⟨g, List.mem_range.mpr hg, rfl⟩

/-- **C1.** The simulator's week/month counters equal the occurrence indices
`d/7` and `d/30` (so occurrence `w` is processed on day `7w`, `m` on day
`30m`); and for every occurrence in range and every game index rolled by
both components, the annotation generator's rolled placement equals the
simulator's rolled placement — both derive it from the identical seed
formula and the identical `frac(sin(seed)·10000)` roll — and that placement
appears as the generator's event for that day and game index. -/
theorem c1_annotation_simulator_agree (cfg : SimConfig) :
    (∀ n : ℕ, (simStateAfter cfg n).weekCount
        = if 0 < cfg.weeklyGames then n / 7 else 0) ∧
    (∀ n : ℕ, (simStateAfter cfg n).monthCount
        = if 0 < cfg.monthlyGames then n / 30 else 0) ∧
    (∀ w g : ℕ, 1 ≤ w → w ≤ 52 → g < cfg.weeklyGames →
      (g : ℤ) < adjustedWeeklyGames cfg (7 * w) →
      simWeeklyPlacement cfg.dist cfg.sinq cfg.profile w g
          = annWeeklyPlacement cfg.dist cfg.sinq cfg.profile w g ∧
      (7 * w, g, simWeeklyPlacement cfg.dist cfg.sinq cfg.profile w g)
          ∈ weeklyAnnotationEvents cfg.dist cfg.sinq cfg.profile cfg.weeklyGames) ∧
    (∀ m g : ℕ, 1 ≤ m → m ≤ 12 → g < cfg.monthlyGames →
      (g : ℤ) < adjustedMonthlyGames cfg (30 * m) →
      simMonthlyPlacement cfg.dist cfg.sinq cfg.profile m g
          = annMonthlyPlacement cfg.dist cfg.sinq cfg.profile m g ∧
      (30 * m, g, simMonthlyPlacement cfg.dist cfg.sinq cfg.profile m g)
          ∈ monthlyAnnotationEvents cfg.dist cfg.sinq cfg.profile cfg.monthlyGames) := by
  refine ⟨weekCount_after cfg, monthCount_after cfg, ?_, ?_⟩
  · intro w g hw1 hw52 hg _
    refine ⟨simWeekly_eq_annWeekly _ _ _ w g, ?_⟩
    rw [simWeekly_eq_annWeekly]
    exact mem_weeklyEvents cfg.dist cfg.sinq cfg.profile cfg.weeklyGames w g hw1 hw52 hg
  · intro m g hm1 hm12 hg _
    refine ⟨simMonthly_eq_annMonthly _ _ _ m g, ?_⟩
    rw [simMonthly_eq_annMonthly]
    exact mem_monthlyEvents cfg.dist cfg.sinq cfg.profile cfg.monthlyGames m g hm1 hm12 hg

/-- **C1 witness.** -/
theorem c1_annotation_simulator_agree_witness :
    1 ≤ 52 ∧ 0 < cfgWeeklyOne.weeklyGames ∧ 0 < cfgWeeklyOne.monthlyGames ∧
    (0 : ℤ) < adjustedWeeklyGames cfgWeeklyOne (7 * 1) ∧
    (0 : ℤ) < adjustedMonthlyGames cfgWeeklyOne (30 * 1) ∧
    (simWeeklyPlacement cfgWeeklyOne.dist cfgWeeklyOne.sinq cfgWeeklyOne.profile 1 0
        = annWeeklyPlacement cfgWeeklyOne.dist cfgWeeklyOne.sinq cfgWeeklyOne.profile 1 0 ∧
      (7 * 1, 0, simWeeklyPlacement cfgWeeklyOne.dist cfgWeeklyOne.sinq cfgWeeklyOne.profile 1 0)
        ∈ weeklyAnnotationEvents cfgWeeklyOne.dist cfgWeeklyOne.sinq cfgWeeklyOne.profile
            cfgWeeklyOne.weeklyGames) ∧
    (simMonthlyPlacement cfgWeeklyOne.dist cfgWeeklyOne.sinq cfgWeeklyOne.profile 1 0
        = annMonthlyPlacement cfgWeeklyOne.dist cfgWeeklyOne.sinq cfgWeeklyOne.profile 1 0 ∧
      (30 * 1, 0, simMonthlyPlacement cfgWeeklyOne.dist cfgWeeklyOne.sinq cfgWeeklyOne.profile 1 0)
        ∈ monthlyAnnotationEvents cfgWeeklyOne.dist cfgWeeklyOne.sinq cfgWeeklyOne.profile
            cfgWeeklyOne.monthlyGames) := by
  have hwadj : (0 : ℤ) < adjustedWeeklyGames cfgWeeklyOne (7 * 1) := by
    norm_num [adjustedWeeklyGames, getSeasonalMultiplier, monthOfDay, getDailyVariation,
      cfgWeeklyOne, sinZero, round_eq]
  have hmadj : (0 : ℤ) < adjustedMonthlyGames cfgWeeklyOne (30 * 1) := by
    norm_num [adjustedMonthlyGames, getSeasonalMultiplier, monthOfDay, cfgWeeklyOne, round_eq]
  refine ⟨by norm_num, by decide, by decide, hwadj, hmadj, ?_, ?_⟩
  · exact (c1_annotation_simulator_agree cfgWeeklyOne).2.2.1 1 0 (by norm_num) (by norm_num)
      (by decide) hwadj
  · exact (c1_annotation_simulator_agree cfgWeeklyOne).2.2.2 1 0 (by norm_num) (by norm_num)
      (by decide) hmadj

end XPCalc
